import Mathlib

/-!
# Verification of the projectMB authentication / refresh-token subsystem

This file gives a shallow embedding of the token allow-list stores
(`src/server/refreshStore.ts`), the session-issuer functions
(`src/server/auth.ts`), the authentication HTTP handlers
(`src/server/routes.ts`) and the client session manager (the client auth
module), and proves or refutes the specified properties about them.

Conventions:
* timestamps are epoch milliseconds, modelled as `Nat`;
* `randomUUID()` is modelled by an explicit `freshJti` parameter;
* JavaScript falsy checks on strings and numbers are embedded literally
  (`!payload?.id` becomes `p.id = ""`, `!e` on a number becomes `e = 0`);
* `jwt.verify` (which throws on a bad token) is modelled as an oracle
  `String → Except Unit RefreshPayload`, and the handlers' try/catch as a
  match on that `Except`.
-/

namespace ProjectMB

/-! ## Refresh allow-list stores (src/server/refreshStore.ts) -/

/-- A row of the `refresh_tokens` table (shared/schema.ts lines 97-103):
jti (primary key), owning user, expiry timestamp, nullable revocation
timestamp.  `createdAt` is never read by the store and is omitted. -/
structure DbRow where
  jti : String
  userId : String
  expiresAt : Nat
  revokedAt : Option Nat
deriving DecidableEq, Repr

/-- State of `DbRefreshStore`: the rows of the `refresh_tokens` table. -/
structure DbStore where
  rows : List DbRow
deriving DecidableEq, Repr

def DbStore.empty : DbStore := ⟨[]⟩

/-- `DbRefreshStore.add` (refreshStore.ts lines 14-16): INSERT a row with
NULL `revokedAt`. -/
def dbAdd (s : DbStore) (jti userId : String) (expiresAt : Nat) : DbStore :=
  ⟨s.rows ++ [⟨jti, userId, expiresAt, none⟩]⟩

/-- `DbRefreshStore.revoke` (refreshStore.ts lines 18-23):
UPDATE refresh_tokens SET revoked_at = new Date() WHERE jti = jti.
There is no `IS NULL` guard, so an already-set `revokedAt` is overwritten. -/
def dbRevoke (s : DbStore) (now : Nat) (jti : String) : DbStore :=
  ⟨s.rows.map (fun r => if r.jti = jti then { r with revokedAt := some now } else r)⟩

/-- `DbRefreshStore.isValid` (refreshStore.ts lines 25-38): SELECT WHERE
jti matches AND revoked_at IS NULL AND expires_at > new Date(), LIMIT 1;
returns whether a row was found.  Note the comparison is strict:
`expiresAt > now`. -/
def dbIsValid (s : DbStore) (now : Nat) (jti : String) : Bool :=
  s.rows.any (fun r => r.jti == jti && r.revokedAt == none && decide (now < r.expiresAt))

/-- State of `MemoryRefreshStore` (refreshStore.ts lines 41-64):
`valid : Set<string>` and `exp : Map<string, number>`, modelled as a
duplicate-free list and an association list. -/
structure MemStore where
  valid : List String
  exp : List (String × Nat)
deriving DecidableEq, Repr

def MemStore.empty : MemStore := ⟨[], []⟩

/-- JS `Set.add`: no duplicate entries. -/
def setInsert (x : String) (l : List String) : List String :=
  if x ∈ l then l else l ++ [x]

/-- JS `Map.set`: overwrite the binding if present, otherwise append it. -/
def mapPut (k : String) (v : Nat) (l : List (String × Nat)) : List (String × Nat) :=
  if l.any (fun p => p.1 == k) then
    l.map (fun p => if p.1 == k then (k, v) else p)
  else l ++ [(k, v)]

/-- JS `Map.get`. -/
def mapGet (k : String) (l : List (String × Nat)) : Option Nat :=
  (l.find? (fun p => p.1 == k)).map Prod.snd

/-- `MemoryRefreshStore.add` (refreshStore.ts lines 45-48). -/
def memAdd (s : MemStore) (jti _userId : String) (expiresAt : Nat) : MemStore :=
  ⟨setInsert jti s.valid, mapPut jti expiresAt s.exp⟩

/-- Deletion of `jti` from both the set and the map (the body of
`MemoryRefreshStore.revoke` and of the lazy-expiry branch of `isValid`). -/
def memDelete (s : MemStore) (jti : String) : MemStore :=
  ⟨s.valid.filter (fun x => x != jti), s.exp.filter (fun p => p.1 != jti)⟩

/-- `MemoryRefreshStore.revoke` (refreshStore.ts lines 49-52). -/
def memRevoke (s : MemStore) (jti : String) : MemStore := memDelete s jti

/-- `MemoryRefreshStore.isValid` (refreshStore.ts lines 53-63).  The JS
test `if (!e) return false` is falsy at `e = 0` as well as at `undefined`,
and `Date.now() > e` lazily deletes an expired entry.  Returns the result
together with the (possibly mutated) store. -/
def memIsValid (s : MemStore) (now : Nat) (jti : String) : Bool × MemStore :=
  if jti ∈ s.valid then
    match mapGet jti s.exp with
    | none => (false, s)
    | some e =>
      if e = 0 then (false, s)
      else if e < now then (false, memDelete s jti)
      else (true, s)
  else (false, s)

/-- The `RefreshStore` interface (refreshStore.ts lines 5-9), as a record
of operations over a store-state type so the handlers can be stated once
for both implementations.  `revoke` takes the current time because the
durable variant writes `new Date()` into the row. -/
structure StoreOps (σ : Type) where
  add : σ → String → String → Nat → σ
  revoke : σ → Nat → String → σ
  isValid : σ → Nat → String → Bool × σ

def memOps : StoreOps MemStore where
  add := memAdd
  revoke := fun s _now j => memRevoke s j
  isValid := memIsValid

def dbOps : StoreOps DbStore where
  add := dbAdd
  revoke := dbRevoke
  isValid := fun s now j => (dbIsValid s now j, s)

/-! ## Session issuer (src/server/auth.ts) -/

def accessTokenTtlSeconds : Nat := 15 * 60

def refreshTokenTtlSeconds : Nat := 7 * 24 * 60 * 60

/-- The identity claim set carried by every token (auth.ts lines 8-12). -/
structure JwtUserPayload where
  id : String
  email : String
  role : String
deriving DecidableEq, Repr

/-- Payload of a verified refresh token (auth.ts lines 82-84): the claim
set plus an optional jti. -/
structure RefreshPayload where
  id : String
  email : String
  role : String
  jti : Option String
deriving DecidableEq, Repr

/-- An issued access token, identified by the claims signed into it
(`generateAccessToken`, auth.ts lines 30-36). -/
structure AccessToken where
  id : String
  email : String
  role : String
deriving DecidableEq, Repr

/-- An issued refresh token: the claims plus the jti signed into it
(`generateRefreshToken`, auth.ts lines 38-49). -/
structure RefreshToken where
  id : String
  email : String
  role : String
  jti : String
deriving DecidableEq, Repr

def generateAccessToken (u : JwtUserPayload) : AccessToken :=
  ⟨u.id, u.email, u.role⟩

/-- `generateRefreshToken` (auth.ts lines 38-49): mint a token carrying
the claims and a fresh jti, and persist the allow-list entry with expiry
`now + REFRESH_TOKEN_TTL_SECONDS * 1000`. -/
def generateRefreshToken (ops : StoreOps σ) (freshJti : String) (now : Nat)
    (u : JwtUserPayload) (s : σ) : RefreshToken × σ :=
  (⟨u.id, u.email, u.role, freshJti⟩,
   ops.add s freshJti u.id (now + refreshTokenTtlSeconds * 1000))

/-- `revokeRefreshToken` (auth.ts lines 51-53): revoke when a jti is
present, otherwise do nothing. -/
def revokeRefreshToken (ops : StoreOps σ) (now : Nat) (jti : Option String) (s : σ) : σ :=
  match jti with
  | some j => ops.revoke s now j
  | none => s

/-- `isRefreshJtiValid` (auth.ts lines 86-89). -/
def isRefreshJtiValid (ops : StoreOps σ) (now : Nat) (jti : Option String) (s : σ) :
    Bool × σ :=
  match jti with
  | none => (false, s)
  | some j => ops.isValid s now j

/-- `rotateRefreshToken` (auth.ts lines 111-115): revoke the old jti, then
mint and persist a new refresh token. -/
def rotateRefreshToken (ops : StoreOps σ) (freshJti : String) (now : Nat)
    (oldJti : Option String) (u : JwtUserPayload) (s : σ) : RefreshToken × σ :=
  generateRefreshToken ops freshJti now u (revokeRefreshToken ops now oldJti s)

/-! ## Authentication HTTP handlers (src/server/routes.ts) -/

/-- Response of POST /api/auth/refresh (routes.ts lines 64-83): HTTP
status, optional message body, optional access token, optional rotated
refresh cookie, optional expiresIn. -/
structure RefreshResp where
  status : Nat
  message : Option String
  token : Option AccessToken
  setCookie : Option RefreshToken
  expiresIn : Option Nat
deriving DecidableEq, Repr

def invalidRefreshResp : RefreshResp :=
  ⟨403, some "Invalid refresh token", none, none, none⟩

/-- POST /api/auth/refresh handler (routes.ts lines 64-83).  The cookie
is `readRefreshCookie`'s result; `verify` models `verifyRefreshToken`
(throw = `.error`); the surrounding try/catch maps a verification throw to
403.  The guard `!payload?.id` is the JS falsy test, i.e. `p.id = ""`,
and it short-circuits `isRefreshJtiValid`. -/
def refreshHandler (ops : StoreOps σ) (verify : String → Except Unit RefreshPayload)
    (freshJti : String) (now : Nat) (cookie : Option String) (s : σ) :
    RefreshResp × σ :=
  match cookie with
  | none => (⟨401, some "No refresh token", none, none, none⟩, s)
  | some tok =>
    match verify tok with
    | .error _ => (invalidRefreshResp, s)
    | .ok p =>
      if p.id = "" then (invalidRefreshResp, s)
      else
        match isRefreshJtiValid ops now p.jti s with
        | (false, s1) => (invalidRefreshResp, s1)
        | (true, s1) =>
          let (newRefresh, s2) :=
            rotateRefreshToken ops freshJti now p.jti ⟨p.id, p.email, p.role⟩ s1
          (⟨200, none, some (generateAccessToken ⟨p.id, p.email, p.role⟩),
            some newRefresh, some accessTokenTtlSeconds⟩, s2)

/-- A stored user record (`storage.getUserByEmail`): id, email, name,
role, bcrypt password hash. -/
structure UserRec where
  id : String
  email : String
  name : String
  role : String
  password : String
deriving DecidableEq, Repr

/-- Response of POST /api/auth/login (routes.ts lines 36-62). -/
structure LoginResp where
  status : Nat
  message : Option String
  token : Option AccessToken
  userBody : Option (String × String × String × String)
  setCookie : Option RefreshToken
  expiresIn : Option Nat
deriving DecidableEq, Repr

def invalidCredentialsResp : LoginResp :=
  ⟨401, some "Invalid credentials", none, none, none, none⟩

/-- POST /api/auth/login handler (routes.ts lines 36-62).  `parsed`
models `loginSchema.parse(req.body)` (throw = `.error`, caught by
`respondZodError` as 400); `getUserByEmail` models the storage lookup;
`compareSync password hash` models `bcrypt.compareSync`.  The single
condition `!user || !bcrypt.compareSync(...)` is embedded as its
short-circuit expansion; both arms return the same 401 response. -/
def loginHandler (ops : StoreOps σ) (parsed : Except Unit (String × String))
    (getUserByEmail : String → Option UserRec)
    (compareSync : String → String → Bool)
    (freshJti : String) (now : Nat) (s : σ) : LoginResp × σ :=
  match parsed with
  | .error _ => (⟨400, some "Invalid request data", none, none, none, none⟩, s)
  | .ok (email, password) =>
    match getUserByEmail email with
    | none => (invalidCredentialsResp, s)
    | some u =>
      if compareSync password u.password = false then (invalidCredentialsResp, s)
      else
        let (refreshTok, s1) :=
          generateRefreshToken ops freshJti now ⟨u.id, u.email, u.role⟩ s
        (⟨200, none, some (generateAccessToken ⟨u.id, u.email, u.role⟩),
          some (u.id, u.email, u.name, u.role), some refreshTok,
          some accessTokenTtlSeconds⟩, s1)

/-- Response of POST /api/auth/logout: status plus whether the refresh
cookie is cleared. -/
structure LogoutResp where
  status : Nat
  clearCookie : Bool
deriving DecidableEq, Repr

/-- POST /api/auth/logout handler (routes.ts lines 85-97).  The source
reads the cookie, verifies it inside try/catch, and tests
`if (payload?.jti)` — but that block contains only the comment
"best-effort revoke" and performs no store operation; every branch leaves
the store untouched, then the cookie is cleared and 204 returned. -/
def logoutHandler (_ops : StoreOps σ) (verify : String → Except Unit RefreshPayload)
    (cookie : Option String) (s : σ) : LogoutResp × σ :=
  let s1 : σ :=
    match cookie with
    | none => s
    | some tok =>
      match verify tok with
      | .error _ => s
      | .ok p =>
        match p.jti with
        | some _ => s
        | none => s
  (⟨204, true⟩, s1)

/-! ## Asynchrony of the durable store's writes during rotation

`revokeRefreshToken` discards the promise of `refreshStore.revoke`
(auth.ts line 52: `void refreshStore.revoke(jti)`) and
`generateRefreshToken` discards the promise of `refreshStore.add`
(auth.ts line 47: `void refreshStore.add(...)`), while the handler awaits
`isRefreshJtiValid` (routes.ts line 70).  For `DbRefreshStore` each store
method performs its database write behind an `await` inside the method,
so a call whose promise is discarded is only *issued*, not necessarily
committed, when the handler returns the response.  We record, for each
write issued on the refresh success path, whether the handler awaited it
before responding, and quantify over the admissible sets of writes that
have committed by the time the response is produced. -/

inductive DbWrite
  | revokeW (jti : String) (now : Nat)
  | addW (jti userId : String) (expiresAt : Nat)
deriving DecidableEq, Repr

structure IssuedCall where
  write : DbWrite
  awaited : Bool
deriving DecidableEq, Repr

/-- The store writes issued by a successful refresh rotation, in program
order, with their awaited flags: both are `void`-discarded in the source,
so neither is awaited before the response. -/
def rotationIssuedWrites (oldJti freshJti userId : String) (now : Nat) : List IssuedCall :=
  [⟨.revokeW oldJti now, false⟩,
   ⟨.addW freshJti userId (now + refreshTokenTtlSeconds * 1000), false⟩]

def applyDbWrite (s : DbStore) : DbWrite → DbStore
  | .revokeW j t => dbRevoke s t j
  | .addW j u e => dbAdd s j u e

/-- A commit mask is admissible at response time iff every write the
handler awaited is marked committed; a non-awaited write may or may not
have committed yet. -/
def maskAdmissible (calls : List IssuedCall) (mask : List Bool) : Bool :=
  mask.length == calls.length &&
    (calls.zip mask).all (fun p => !p.1.awaited || p.2)

/-- The durable store's state visible to a validity check performed right
after the response, given which issued writes have committed. -/
def dbStateAtResponse (s : DbStore) (calls : List IssuedCall) (mask : List Bool) : DbStore :=
  (calls.zip mask).foldl (fun st p => if p.2 then applyDbWrite st p.1.write else st) s

/-! ## Observational comparison of the two stores

A timed operation sequence run against a store at the `RefreshStore`
interface; the observable outputs are the `isValid` results. -/

inductive StoreOp
  | addOp (jti userId : String) (expiresAt : Nat)
  | revokeOp (jti : String)
  | queryOp (jti : String)
deriving DecidableEq, Repr

def runOps (ops : StoreOps σ) (s : σ) : List (Nat × StoreOp) → List Bool
  | [] => []
  | (_, .addOp j u e) :: rest => runOps ops (ops.add s j u e) rest
  | (t, .revokeOp j) :: rest => runOps ops (ops.revoke s t j) rest
  | (t, .queryOp j) :: rest =>
    match ops.isValid s t j with
    | (b, s1) => b :: runOps ops s1 rest

/-! ## Client session manager (client auth module)

The module-level handle `let refreshInFlight : Promise<string> | null`
is shared by `auth.refreshNow` and by the 401/403 retry path of
`authenticatedApiRequest`; both run, on the single-threaded JS event
loop, the atomic step: if the handle is null, start `doRefresh()` (one
network call to POST /api/auth/refresh) and store its promise with a
`finally` that nulls the handle; then await the stored promise.  We model
the client as a state machine whose events are a caller needing a refresh
and a network call settling. -/

inductive RefreshResult
  | success (token : String)
  | failure
deriving DecidableEq, Repr

structure ClientState where
  /-- the `refreshInFlight` handle: id of the pending flight, if any -/
  pending : Option Nat
  /-- source of fresh flight ids -/
  nextId : Nat
  /-- network refresh calls currently in flight -/
  inFlight : List Nat
  /-- total number of network refresh calls ever started -/
  started : Nat
  /-- (caller, flight id) for each caller awaiting a flight's promise -/
  waiters : List (Nat × Nat)
  /-- settled flights and their results -/
  results : List (Nat × RefreshResult)
deriving DecidableEq, Repr

def ClientState.init : ClientState := ⟨none, 0, [], 0, [], []⟩

inductive ClientEvent
  | need (caller : Nat)
  | settle (fid : Nat) (r : RefreshResult)
deriving DecidableEq, Repr

/-- One atomic event-loop step.  `need` is the body of `refreshNow` /
the 401-403 branch of `authenticatedApiRequest`: attach to the pending
flight if one exists, otherwise start a new network call and store its
handle.  `settle` is the network call resolving or rejecting: the
`finally` callback nulls the handle and every attached caller observes
the flight's result. -/
def clientStep (s : ClientState) : ClientEvent → ClientState
  | .need c =>
    match s.pending with
    | some f => { s with waiters := (c, f) :: s.waiters }
    | none =>
      { s with
        pending := some s.nextId
        nextId := s.nextId + 1
        inFlight := s.nextId :: s.inFlight
        started := s.started + 1
        waiters := (c, s.nextId) :: s.waiters }
  | .settle f r =>
    if f ∈ s.inFlight then
      { s with
        inFlight := s.inFlight.filter (fun x => x != f)
        pending := none
        results := (f, r) :: s.results }
    else s

def clientRun (evs : List ClientEvent) : ClientState :=
  evs.foldl clientStep ClientState.init

/-! ## Client-side logout (client auth module, `auth.logout`)

`auth.logout` performs exactly four effects, in order:
remove the access token, the cached user and the expiry epoch from
localStorage, then navigate to the login page.  We embed the effect list
and an interpreter over a whole-system state (browser storage, refresh
cookie, server store, requests received by the server) so the frame
condition is checkable. -/

inductive ClientEffect
  | removeItem (key : String)
  | navigate (url : String)
  | request (method url : String)
deriving DecidableEq, Repr

/-- The effect list of `auth.logout`, transcribed line by line. -/
def logoutEffects : List ClientEffect :=
  [.removeItem "auth_token",
   .removeItem "auth_user",
   .removeItem "auth_exp",
   .navigate "/login"]

structure SysState (σ : Type) where
  localStorage : List (String × String)
  location : String
  refreshCookie : Option String
  server : σ
  serverRequests : List (String × String)
deriving Repr

def applyClientEffect (s : SysState σ) : ClientEffect → SysState σ
  | .removeItem k => { s with localStorage := s.localStorage.filter (fun p => p.1 != k) }
  | .navigate u => { s with location := u }
  | .request m u => { s with serverRequests := s.serverRequests ++ [(m, u)] }

def runClientEffects (s : SysState σ) (effs : List ClientEffect) : SysState σ :=
  effs.foldl applyClientEffect s

/-! ## Helper lemmas -/

theorem filter_idem {α : Type} (l : List α) (p : α → Bool) :
    (l.filter p).filter p = l.filter p := by
  induction l with
  | nil => rfl
  | cons a t ih =>
    by_cases h : p a = true
    · simp [List.filter_cons, h, ih]
    · simp [List.filter_cons, Bool.eq_false_iff.mpr h, ih]

theorem dbRow_update_idem (t : Nat) (j : String) (r : DbRow) :
    (fun r => if r.jti = j then { r with revokedAt := some t } else r)
      ((fun r => if r.jti = j then { r with revokedAt := some t } else r) r) =
    (fun r => if r.jti = j then { r with revokedAt := some t } else r) r := by
  by_cases h : r.jti = j <;> simp [h]

theorem mem_setInsert {x y : String} {l : List String} :
    x ∈ setInsert y l ↔ x = y ∨ x ∈ l := by
  unfold setInsert
  by_cases h : y ∈ l
  · simp only [if_pos h]
    constructor
    · exact Or.inr
    · rintro (rfl | hx)
      · exact h
      · exact hx
  · simp [if_neg h, List.mem_append, or_comm]

theorem assoc_nodup_eq {α β : Type} [DecidableEq α] {l : List (α × β)} {a : α} {b₁ b₂ : β}
    (hnd : (l.map Prod.fst).Nodup) (h₁ : (a, b₁) ∈ l) (h₂ : (a, b₂) ∈ l) :
    b₁ = b₂ := by
  induction l with
  | nil => cases h₁
  | cons p t ih =>
    simp only [List.map_cons, List.nodup_cons] at hnd
    rcases List.mem_cons.mp h₁ with h₁ | h₁ <;> rcases List.mem_cons.mp h₂ with h₂ | h₂
    · rw [← h₁] at h₂; exact congrArg Prod.snd h₂.symm
    · exact absurd (List.mem_map.mpr ⟨(a, b₂), h₂, by rw [← h₁]⟩) hnd.1
    · exact absurd (List.mem_map.mpr ⟨(a, b₁), h₁, by rw [← h₂]⟩) hnd.1
    · exact ih hnd.2 h₁ h₂

/-- After a rotation (revoke old jti, add a distinct fresh jti), the
in-memory store reports the old jti invalid at any time. -/
theorem memIsValid_after_rotation (s : MemStore) (j f u : String) (e now : Nat)
    (hne : f ≠ j) :
    (memIsValid (memAdd (memRevoke s j) f u e) now j).1 = false := by
  have hj : j ∉ (memAdd (memRevoke s j) f u e).valid := by
    intro hmem
    rcases mem_setInsert.mp hmem with rfl | hmem'
    · exact hne rfl
    · rcases List.mem_filter.mp hmem' with ⟨-, hne'⟩
      exact bne_iff_ne.mp hne' rfl
  simp [memIsValid, if_neg hj]

/-- After a rotation, the durable store reports the old jti invalid at
any time: every row keyed by the old jti has its revocation timestamp
set, and the appended row is keyed by the distinct fresh jti. -/
theorem dbIsValid_after_rotation (s : DbStore) (j f u : String) (t e now : Nat)
    (hne : f ≠ j) :
    dbIsValid (dbAdd (dbRevoke s t j) f u e) now j = false := by
  simp only [dbIsValid, dbAdd, dbRevoke, List.any_append, List.any_map, Bool.or_eq_false_iff]
  constructor
  · rw [List.any_eq_false]
    intro r _
    by_cases h : r.jti = j <;> simp [Function.comp, h, hne]
  · simp [hne]

theorem filter_ne_filter_eq {β : Type} (l : List (String × β)) (a k : String) (h : k ≠ a) :
    (l.filter (fun p => p.1 != a)).filter (fun p => p.1 == k) =
      l.filter (fun p => p.1 == k) := by
  induction l with
  | nil => rfl
  | cons p t ih =>
    by_cases hk : p.1 = k
    · have ha : (p.1 != a) = true := bne_iff_ne.mpr (by rw [hk]; exact h)
      simp [List.filter_cons, ha, hk, ih, h, Ne.symm h]
    · by_cases ha : p.1 = a <;>
        simp [List.filter_cons, hk, ha, ih, h, Ne.symm h]

/-! ## Concrete fixtures used by closed evaluation theorems -/

/-- A token-verification oracle recognising one refresh token `"tok1"`
carrying jti `"j1"`. -/
def demoVerify : String → Except Unit RefreshPayload :=
  fun t => if t = "tok1" then .ok ⟨"u1", "u1@example.com", "admin", some "j1"⟩ else .error ()

/-- An in-memory store holding a live allow-list entry for `"j1"`. -/
def demoStore : MemStore := memAdd MemStore.empty "j1" "u1" 2000000

/-! ## Claim theorems -/

/-- **C1.** The POST /api/auth/logout handler, given a verifiable refresh
cookie whose jti `"j1"` is valid in the store, responds 204 and clears
the cookie — but it performs no revocation: the store is returned
unchanged and `isValid "j1"` still holds afterwards.  This refutes the
claimed best-effort revoke (the handler's `if (payload?.jti)` block holds
only a comment), while confirming the always-204 half of the claim. -/
theorem logout_does_not_revoke :
    (logoutHandler memOps demoVerify (some "tok1") demoStore).1 = ⟨204, true⟩ ∧
    (logoutHandler memOps demoVerify (some "tok1") demoStore).2 = demoStore ∧
    (memIsValid demoStore 1000 "j1").1 = true ∧
    (memIsValid (logoutHandler memOps demoVerify (some "tok1") demoStore).2 1000 "j1").1
      = true := by
  decide

/-- The operation sequence exercising the expiry boundary: add an entry
expiring at time 1000, then query it exactly at time 1000. -/
def boundarySeq : List (Nat × StoreOp) :=
  [(0, .addOp "j" "u" 1000), (1000, .queryOp "j")]

/-- **C4.** The two store variants are *not* observationally equivalent:
running the same timed add/isValid sequence, the in-memory store answers
`true` at the instant the current time equals the entry's expiry time,
while the durable store answers `false` (its SQL predicate is the strict
`expiresAt > now`). -/
theorem store_variants_diverge_at_expiry :
    runOps memOps MemStore.empty boundarySeq = [true] ∧
    runOps dbOps DbStore.empty boundarySeq = [false] := by
  decide

/-- **C5.** The in-memory store violates the validity invariant at the
expiry boundary: with an unrevoked entry whose expiry is 1000, `isValid`
at time 1000 returns `true` although the current time is not strictly
less than the expiry time; the durable store conforms at the same
instant. -/
theorem mem_isValid_true_at_expiry_instant :
    (memIsValid (memAdd MemStore.empty "j" "u" 1000) 1000 "j").1 = true ∧
    ¬ (1000 < 1000) ∧
    dbIsValid (dbAdd DbStore.empty "j" "u" 1000) 1000 "j" = false := by
  decide

/-- **C6.** For both store variants, `revoke` is idempotent — revoking
the same jti twice (the durable store stamping the same revocation time)
yields the same state as revoking it once — and revoking an absent jti
is a no-op rather than an error (the model functions are total: no code
path throws). -/
theorem revoke_idempotent :
    ∀ (s : MemStore) (j : String) (sd : DbStore) (t : Nat),
      memRevoke (memRevoke s j) j = memRevoke s j ∧
      dbRevoke (dbRevoke sd t j) t j = dbRevoke sd t j ∧
      (j ∉ s.valid → (∀ p ∈ s.exp, p.1 ≠ j) → memRevoke s j = s) ∧
      ((∀ r ∈ sd.rows, r.jti ≠ j) → dbRevoke sd t j = sd) := by
  intro s j sd t
  refine ⟨?_, ?_, ?_, ?_⟩
  · simp [memRevoke, memDelete, filter_idem]
  · simp only [dbRevoke, List.map_map]
    congr 1
    apply List.map_congr_left
    intro r _
    by_cases h : r.jti = j <;> simp [Function.comp, h]
  · intro hj hexp
    have h1 : s.valid.filter (fun x => x != j) = s.valid :=
      List.filter_eq_self.mpr (fun x hx => bne_iff_ne.mpr (fun hEq => hj (hEq ▸ hx)))
    have h2 : s.exp.filter (fun p => p.1 != j) = s.exp :=
      List.filter_eq_self.mpr (fun p hp => bne_iff_ne.mpr (hexp p hp))
    simp only [memRevoke, memDelete, h1, h2]
  · intro hrows
    have : sd.rows.map (fun r => if r.jti = j then { r with revokedAt := some t } else r)
        = sd.rows := by
      conv_rhs => rw [← List.map_id sd.rows]
      apply List.map_congr_left
      intro r hr
      simp [hrows r hr]
    simp only [dbRevoke, this]

def c6Mem : MemStore := ⟨["a"], [("a", 5)]⟩

def c6Db : DbStore := ⟨[⟨"a", "u", 5, none⟩]⟩

theorem revoke_idempotent_witness :
    memRevoke c6Mem "b" = c6Mem ∧ dbRevoke c6Db 3 "b" = c6Db :=
  ⟨(revoke_idempotent c6Mem "b" c6Db 3).2.2.1 (by decide) (by decide),
   (revoke_idempotent c6Mem "b" c6Db 3).2.2.2 (by decide)⟩

/-- **C7.** The login handler's failure response when no user exists for
the submitted email is literally the same response (same status 401,
same message "Invalid credentials", same empty body fields, same store
state) as when the user exists but credential verification fails — an
observer cannot distinguish the two cases. -/
theorem login_failure_uniform :
    ∀ (σ : Type) (ops : StoreOps σ) (email password : String) (u : UserRec)
      (compareSync : String → String → Bool) (freshJti : String) (now : Nat) (s : σ),
      compareSync password u.password = false →
      loginHandler ops (.ok (email, password)) (fun _ => none) compareSync freshJti now s =
        loginHandler ops (.ok (email, password)) (fun _ => some u) compareSync freshJti now s ∧
      (loginHandler ops (.ok (email, password)) (fun _ => none) compareSync freshJti now s).1 =
        invalidCredentialsResp := by
  intro σ ops email password u compareSync freshJti now s h
  constructor <;> simp [loginHandler, h]

theorem login_failure_uniform_witness :
    loginHandler memOps (.ok ("e@x", "pw")) (fun _ => none) (fun _ _ => false)
        "f" 0 MemStore.empty =
      loginHandler memOps (.ok ("e@x", "pw"))
        (fun _ => some ⟨"u1", "e@x", "N", "admin", "h"⟩) (fun _ _ => false)
        "f" 0 MemStore.empty :=
  (login_failure_uniform MemStore memOps "e@x" "pw" ⟨"u1", "e@x", "N", "admin", "h"⟩
    (fun _ _ => false) "f" 0 MemStore.empty rfl).1

/-- **C10.** The client's `auth.logout` changes only client-local state:
it leaves the server store, the refresh cookie and the stream of
requests received by the server untouched, navigates to "/login",
removes exactly the three session keys from localStorage (any other key
is preserved), and its effect list contains no network request at all. -/
theorem client_logout_frame :
    ∀ (σ : Type) (s : SysState σ),
      (runClientEffects s logoutEffects).server = s.server ∧
      (runClientEffects s logoutEffects).refreshCookie = s.refreshCookie ∧
      (runClientEffects s logoutEffects).serverRequests = s.serverRequests ∧
      (runClientEffects s logoutEffects).location = "/login" ∧
      (∀ p ∈ (runClientEffects s logoutEffects).localStorage,
        p.1 ≠ "auth_token" ∧ p.1 ≠ "auth_user" ∧ p.1 ≠ "auth_exp") ∧
      (∀ k, k ≠ "auth_token" → k ≠ "auth_user" → k ≠ "auth_exp" →
        (runClientEffects s logoutEffects).localStorage.filter (fun p => p.1 == k) =
          s.localStorage.filter (fun p => p.1 == k)) ∧
      (∀ e ∈ logoutEffects, ∀ m u, e ≠ ClientEffect.request m u) := by
  intro σ s
  refine ⟨rfl, rfl, rfl, rfl, ?_, ?_, ?_⟩
  · intro p hp
    simp only [runClientEffects, logoutEffects, applyClientEffect, List.foldl] at hp
    rcases List.mem_filter.mp hp with ⟨hp1, hexp⟩
    rcases List.mem_filter.mp hp1 with ⟨hp2, huser⟩
    rcases List.mem_filter.mp hp2 with ⟨-, htok⟩
    exact ⟨bne_iff_ne.mp htok, bne_iff_ne.mp huser, bne_iff_ne.mp hexp⟩
  · intro k hk1 hk2 hk3
    simp only [runClientEffects, logoutEffects, applyClientEffect, List.foldl]
    rw [filter_ne_filter_eq _ _ _ hk3, filter_ne_filter_eq _ _ _ hk2,
      filter_ne_filter_eq _ _ _ hk1]
  · intro e he m u
    simp only [logoutEffects, List.mem_cons, List.not_mem_nil, or_false] at he
    rcases he with rfl | rfl | rfl | rfl <;> simp

def c10Sys : SysState MemStore :=
  ⟨[("auth_token", "t"), ("other", "v")], "/app", some "cookie", demoStore, []⟩

theorem client_logout_frame_witness :
    (runClientEffects c10Sys logoutEffects).server = c10Sys.server ∧
    (runClientEffects c10Sys logoutEffects).localStorage.filter (fun p => p.1 == "other") =
      c10Sys.localStorage.filter (fun p => p.1 == "other") :=
  ⟨(client_logout_frame MemStore c10Sys).1,
   (client_logout_frame MemStore c10Sys).2.2.2.2.2.1 "other"
     (by decide) (by decide) (by decide)⟩

/-- Inversion of a successful refresh: a 200 response implies the
payload had a non-empty id and a jti valid in the store, and the
post-response store is the rotation (revoke old jti, add the fresh
one). -/
theorem refresh_success_inv {σ : Type} (ops : StoreOps σ)
    (verify : String → Except Unit RefreshPayload) (tok : String) (p : RefreshPayload)
    (f : String) (now : Nat) (s : σ)
    (hv : verify tok = .ok p)
    (h200 : (refreshHandler ops verify f now (some tok) s).1.status = 200) :
    p.id ≠ "" ∧ ∃ j s1, p.jti = some j ∧ ops.isValid s now j = (true, s1) ∧
      (refreshHandler ops verify f now (some tok) s).2 =
        ops.add (ops.revoke s1 now j) f p.id (now + refreshTokenTtlSeconds * 1000) := by
  by_cases hid : p.id = ""
  · simp [refreshHandler, hv, hid, invalidRefreshResp] at h200
  · cases hpj : p.jti with
    | none =>
      simp [refreshHandler, hv, hid, hpj, isRefreshJtiValid, invalidRefreshResp] at h200
    | some j =>
      rcases hvalid : ops.isValid s now j with ⟨b, s1⟩
      cases b
      · simp [refreshHandler, hv, hid, hpj, isRefreshJtiValid, hvalid,
          invalidRefreshResp] at h200
      · refine ⟨hid, j, s1, rfl, hvalid, ?_⟩
        simp [refreshHandler, hv, hid, hpj, isRefreshJtiValid, hvalid,
          rotateRefreshToken, generateRefreshToken, revokeRefreshToken]

def demoDbStore : DbStore := dbAdd DbStore.empty "j1" "u1" 2000000

/-- **C2.** Refresh replay detection, for both store variants: if a
refresh presenting a token with jti `j` succeeds (rotating `j` away to a
distinct fresh jti), then a later refresh presenting the very same token
— whose signature still verifies, since `verify` is unchanged — is
rejected with 403. -/
theorem refresh_replay_rejected
    (verify : String → Except Unit RefreshPayload) (tok : String) (p : RefreshPayload)
    (j f1 f2 g1 g2 : String) (sm : MemStore) (sd : DbStore) (n1 n2 m1 m2 : Nat)
    (hv : verify tok = .ok p) (hj : p.jti = some j) (hf1 : f1 ≠ j) (hg1 : g1 ≠ j)
    (h200m : (refreshHandler memOps verify f1 n1 (some tok) sm).1.status = 200)
    (h200d : (refreshHandler dbOps verify g1 m1 (some tok) sd).1.status = 200) :
    (refreshHandler memOps verify f2 n2 (some tok)
        (refreshHandler memOps verify f1 n1 (some tok) sm).2).1.status = 403 ∧
    (refreshHandler dbOps verify g2 m2 (some tok)
        (refreshHandler dbOps verify g1 m1 (some tok) sd).2).1.status = 403 := by
  constructor
  · rcases refresh_success_inv memOps verify tok p f1 n1 sm hv h200m with
      ⟨hid, j', s1, hj', hvalid, hstate⟩
    rw [hj] at hj'
    injection hj' with hj''
    subst hj''
    rw [hstate]
    rcases h2 : memIsValid
        (memAdd (memRevoke s1 j) f1 p.id (n1 + refreshTokenTtlSeconds * 1000))
        n2 j with ⟨b2, s3⟩
    have hb2 : b2 = false := by
      have hkill := memIsValid_after_rotation s1 j f1 p.id
        (n1 + refreshTokenTtlSeconds * 1000) n2 hf1
      rw [h2] at hkill
      exact hkill
    subst hb2
    simp [refreshHandler, hv, hid, hj, isRefreshJtiValid, memOps, h2, invalidRefreshResp]
  · rcases refresh_success_inv dbOps verify tok p g1 m1 sd hv h200d with
      ⟨hid, j', s1, hj', hvalid, hstate⟩
    rw [hj] at hj'
    injection hj' with hj''
    subst hj''
    rw [hstate]
    have hkill := dbIsValid_after_rotation s1 j g1 p.id m1
      (m1 + refreshTokenTtlSeconds * 1000) m2 hg1
    simp [refreshHandler, hv, hid, hj, isRefreshJtiValid, dbOps, hkill, invalidRefreshResp]

theorem refresh_replay_rejected_witness :
    (refreshHandler memOps demoVerify "f2" 1001 (some "tok1")
        (refreshHandler memOps demoVerify "f1" 1000 (some "tok1") demoStore).2).1.status
      = 403 ∧
    (refreshHandler dbOps demoVerify "g2" 1001 (some "tok1")
        (refreshHandler dbOps demoVerify "g1" 1000 (some "tok1") demoDbStore).2).1.status
      = 403 :=
  refresh_replay_rejected demoVerify "tok1" ⟨"u1", "u1@example.com", "admin", some "j1"⟩
    "j1" "f1" "f2" "g1" "g2" demoStore demoDbStore 1000 1001 1000 1001
    rfl rfl (by decide) (by decide) (by decide) (by decide)

/-- **C3, counterexample.** The claim fails for the durable store: the
empty commit mask is admissible at response time (no write on the
rotation path is awaited — both are `void`-discarded), and under it a
validity check performed after the rotation response still observes the
old jti as valid.  Committing the revoke write (mask `[true, false]`)
closes the window, pinning the stale read on the uncommitted revoke. -/
theorem refresh_response_races_revoke_commit :
    maskAdmissible (rotationIssuedWrites "old" "new" "u" 1000) [false, false] = true ∧
    dbIsValid (dbStateAtResponse (dbAdd DbStore.empty "old" "u" 2000000)
        (rotationIssuedWrites "old" "new" "u" 1000) [false, false]) 1500 "old" = true ∧
    maskAdmissible (rotationIssuedWrites "old" "new" "u" 1000) [true, false] = true ∧
    dbIsValid (dbStateAtResponse (dbAdd DbStore.empty "old" "u" 2000000)
        (rotationIssuedWrites "old" "new" "u" 1000) [true, false]) 1500 "old" = false := by
  decide

/-- **C3, amended.** Revocation visibility as the code actually provides
it: (a) neither store write issued on the rotation path (the revoke of
the old jti and the add of the new one) is awaited before the rotation
response; (b) for the in-memory store the mutation nevertheless applies
synchronously during the handler, so every validity check against the
post-response store state observes the old jti as invalid. -/
theorem refresh_revocation_visibility :
    (∀ (o n u : String) (t : Nat),
      (rotationIssuedWrites o n u t).all (fun c => !c.awaited) = true) ∧
    (∀ (verify : String → Except Unit RefreshPayload) (tok : String) (p : RefreshPayload)
      (j f : String) (n1 n2 : Nat) (sm : MemStore),
      verify tok = .ok p → p.jti = some j → f ≠ j →
      (refreshHandler memOps verify f n1 (some tok) sm).1.status = 200 →
      (memIsValid (refreshHandler memOps verify f n1 (some tok) sm).2 n2 j).1 = false) := by
  constructor
  · intro o n u t
    rfl
  · intro verify tok p j f n1 n2 sm hv hj hf h200
    rcases refresh_success_inv memOps verify tok p f n1 sm hv h200 with
      ⟨hid, j', s1, hj', hvalid, hstate⟩
    rw [hj] at hj'
    injection hj' with hj''
    subst hj''
    rw [hstate]
    exact memIsValid_after_rotation s1 j f p.id (n1 + refreshTokenTtlSeconds * 1000) n2 hf

theorem refresh_revocation_visibility_witness :
    (rotationIssuedWrites "o" "n" "u" 5).all (fun c => !c.awaited) = true ∧
    (memIsValid (refreshHandler memOps demoVerify "fr" 1000 (some "tok1") demoStore).2
      1200 "j1").1 = false :=
  ⟨refresh_revocation_visibility.1 "o" "n" "u" 5,
   refresh_revocation_visibility.2 demoVerify "tok1"
     ⟨"u1", "u1@example.com", "admin", some "j1"⟩ "j1" "fr" 1000 1200 demoStore
     rfl rfl (by decide) (by decide)⟩

/-- **C8.** On a successful rotation the issued access token and refresh
token carry exactly the claim set (id, email, role) of the verified
payload at the moment of issuance (the fresh jti going into the refresh
token); and no failure escapes the request boundary: a verification
throw is converted to 403 "Invalid refresh token", a missing cookie to
401, a body-parse failure of login to 400 "Invalid request data", and
every execution of either handler produces one of the documented HTTP
statuses. -/
theorem refresh_rotation_claims_and_edge_conversion :
    ∀ (σ : Type) (ops : StoreOps σ) (verify : String → Except Unit RefreshPayload)
      (f : String) (now : Nat),
      (∀ tok p j s s1, verify tok = .ok p → p.id ≠ "" → p.jti = some j →
        ops.isValid s now j = (true, s1) →
        (refreshHandler ops verify f now (some tok) s).1 =
          ⟨200, none, some ⟨p.id, p.email, p.role⟩, some ⟨p.id, p.email, p.role, f⟩,
            some accessTokenTtlSeconds⟩) ∧
      (∀ tok s, verify tok = .error () →
        refreshHandler ops verify f now (some tok) s = (invalidRefreshResp, s)) ∧
      (∀ s, refreshHandler ops verify f now none s =
        (⟨401, some "No refresh token", none, none, none⟩, s)) ∧
      (∀ cookie s, (refreshHandler ops verify f now cookie s).1.status = 200 ∨
        (refreshHandler ops verify f now cookie s).1.status = 401 ∨
        (refreshHandler ops verify f now cookie s).1.status = 403) ∧
      (∀ getU cmp s, loginHandler ops (.error ()) getU cmp f now s =
        (⟨400, some "Invalid request data", none, none, none, none⟩, s)) ∧
      (∀ parsed getU cmp s, (loginHandler ops parsed getU cmp f now s).1.status = 200 ∨
        (loginHandler ops parsed getU cmp f now s).1.status = 400 ∨
        (loginHandler ops parsed getU cmp f now s).1.status = 401) := by
  intro σ ops verify f now
  refine ⟨?_, ?_, ?_, ?_, ?_, ?_⟩
  · intro tok p j s s1 hv hid hj hvalid
    simp [refreshHandler, hv, hid, hj, isRefreshJtiValid, hvalid, rotateRefreshToken,
      generateRefreshToken, revokeRefreshToken, generateAccessToken]
  · intro tok s hv
    simp [refreshHandler, hv]
  · intro s
    simp [refreshHandler]
  · intro cookie s
    cases cookie with
    | none => simp [refreshHandler]
    | some tok =>
      cases hv : verify tok with
      | error e => simp [refreshHandler, hv, invalidRefreshResp]
      | ok p =>
        by_cases hid : p.id = ""
        · simp [refreshHandler, hv, hid, invalidRefreshResp]
        · cases hpj : p.jti with
          | none =>
            simp [refreshHandler, hv, hid, hpj, isRefreshJtiValid, invalidRefreshResp]
          | some j =>
            rcases hvalid : ops.isValid s now j with ⟨b, s1⟩
            cases b <;>
              simp [refreshHandler, hv, hid, hpj, isRefreshJtiValid, hvalid,
                invalidRefreshResp]
  · intro getU cmp s
    simp [loginHandler]
  · intro parsed getU cmp s
    cases parsed with
    | error e => simp [loginHandler]
    | ok pr =>
      obtain ⟨email, password⟩ := pr
      cases hu : getU email with
      | none => simp [loginHandler, hu, invalidCredentialsResp]
      | some u =>
        cases hc : cmp password u.password <;>
          simp [loginHandler, hu, hc, invalidCredentialsResp]

theorem refresh_rotation_claims_witness :
    (refreshHandler memOps demoVerify "fr" 1000 (some "tok1") demoStore).1 =
      ⟨200, none, some ⟨"u1", "u1@example.com", "admin"⟩,
        some ⟨"u1", "u1@example.com", "admin", "fr"⟩, some accessTokenTtlSeconds⟩ :=
  (refresh_rotation_claims_and_edge_conversion MemStore memOps demoVerify "fr" 1000).1
    "tok1" ⟨"u1", "u1@example.com", "admin", some "j1"⟩ "j1" demoStore demoStore
    rfl (by decide) rfl (by decide)

/-- Invariant of the client refresh machine: the in-flight list mirrors
the `refreshInFlight` handle; settled flight ids are distinct; a flight
is never both in flight and settled; flight ids are bounded by the id
source. -/
def ClientInv (s : ClientState) : Prop :=
  s.inFlight = s.pending.toList ∧
  (s.results.map Prod.fst).Nodup ∧
  (∀ f ∈ s.inFlight, f ∉ s.results.map Prod.fst) ∧
  (∀ f ∈ s.inFlight, f < s.nextId) ∧
  (∀ f ∈ s.results.map Prod.fst, f < s.nextId)

theorem clientInv_init : ClientInv ClientState.init := by
  refine ⟨rfl, List.nodup_nil, ?_, ?_, ?_⟩ <;> intro f hf <;> simp [ClientState.init] at hf

theorem clientInv_step (s : ClientState) (e : ClientEvent) (h : ClientInv s) :
    ClientInv (clientStep s e) := by
  obtain ⟨h1, h2, h3, h4, h5⟩ := h
  cases e with
  | need c =>
    cases hp : s.pending with
    | some f =>
      simp only [clientStep, hp]
      exact ⟨h1.trans (by rw [hp]), h2, h3, h4, h5⟩
    | none =>
      have hif : s.inFlight = [] := by rw [h1, hp]; rfl
      simp only [clientStep, hp]
      refine ⟨?_, h2, ?_, ?_, ?_⟩
      · simp [hif]
      · intro g hg
        rw [hif] at hg
        simp only [List.cons_append, List.nil_append] at hg
        simp only [List.mem_singleton] at hg
        subst hg
        intro hmem
        exact absurd (h5 _ hmem) (lt_irrefl _)
      · intro g hg
        rw [hif] at hg
        simp only [List.mem_singleton] at hg
        subst hg
        exact Nat.lt_succ_self _
      · intro g hg
        exact Nat.lt_succ_of_lt (h5 g hg)
  | settle f r =>
    by_cases hin : f ∈ s.inFlight
    · have hif : s.inFlight = [f] := by
        rcases hp : s.pending with _ | g
        · rw [h1, hp] at hin; cases hin
        · rw [h1, hp] at hin
          simp only [Option.toList_some, List.mem_singleton] at hin
          subst hin
          rw [h1, hp]
          rfl
      simp only [clientStep, if_pos hin]
      refine ⟨?_, ?_, ?_, ?_, ?_⟩
      · rw [hif]
        simp
      · simp only [List.map_cons, List.nodup_cons]
        exact ⟨h3 f hin, h2⟩
      · intro g hg
        rw [hif] at hg
        simp at hg
      · intro g hg
        rw [hif] at hg
        simp at hg
      · intro g hg
        simp only [List.map_cons, List.mem_cons] at hg
        rcases hg with hgf | hg
        · subst hgf
          exact h4 _ hin
        · exact h5 g hg
    · simp only [clientStep, if_neg hin]
      exact ⟨h1, h2, h3, h4, h5⟩

theorem clientInv_run_aux (evs : List ClientEvent) (s : ClientState) (h : ClientInv s) :
    ClientInv (evs.foldl clientStep s) := by
  induction evs generalizing s with
  | nil => exact h
  | cons e t ih => exact ih _ (clientInv_step s e h)

theorem clientInv_run (evs : List ClientEvent) : ClientInv (clientRun evs) :=
  clientInv_run_aux evs ClientState.init clientInv_init

/-- **C9.** Single-flight on the client: in every reachable state of the
refresh machine at most one network refresh call is in flight; a flight
id settles to exactly one result, so every caller attached to that
flight observes the same resolved token or the same shared failure; and
once a flight settles the handle is cleared, so the next caller that
needs a refresh starts exactly one fresh network call. -/
theorem single_flight_refresh :
    ∀ (evs : List ClientEvent),
      (clientRun evs).inFlight.length ≤ 1 ∧
      (∀ f r₁ r₂, (f, r₁) ∈ (clientRun evs).results →
        (f, r₂) ∈ (clientRun evs).results → r₁ = r₂) ∧
      (∀ f r c, f ∈ (clientRun evs).inFlight →
        (clientRun (evs ++ [ClientEvent.settle f r])).pending = none ∧
        (clientRun (evs ++ [ClientEvent.settle f r, ClientEvent.need c])).started =
          (clientRun evs).started + 1) := by
  intro evs
  obtain ⟨h1, h2, h3, h4, h5⟩ := clientInv_run evs
  refine ⟨?_, ?_, ?_⟩
  · rw [h1]
    cases (clientRun evs).pending <;> simp
  · intro f r₁ r₂ hm1 hm2
    exact assoc_nodup_eq h2 hm1 hm2
  · intro f r c hin
    have hrun : clientRun (evs ++ [ClientEvent.settle f r]) =
        clientStep (clientRun evs) (ClientEvent.settle f r) := by
      simp [clientRun, List.foldl_append]
    have hrun2 : clientRun (evs ++ [ClientEvent.settle f r, ClientEvent.need c]) =
        clientStep (clientStep (clientRun evs) (ClientEvent.settle f r))
          (ClientEvent.need c) := by
      simp [clientRun, List.foldl_append]
    constructor
    · rw [hrun]
      simp [clientStep, if_pos hin]
    · rw [hrun2]
      simp [clientStep, if_pos hin]

theorem single_flight_refresh_witness :
    (clientRun [ClientEvent.need 0, ClientEvent.need 1]).inFlight.length ≤ 1 ∧
    (clientRun ([ClientEvent.need 0, ClientEvent.need 1] ++
        [ClientEvent.settle 0 (RefreshResult.success "t")])).pending = none :=
  ⟨(single_flight_refresh [ClientEvent.need 0, ClientEvent.need 1]).1,
   ((single_flight_refresh [ClientEvent.need 0, ClientEvent.need 1]).2.2 0
      (RefreshResult.success "t") 3 (by decide)).1⟩

end ProjectMB
